import Mathlib

/-!
Verification of the model-selection and diagnosis-request core of the
symptom-assistant program (`src/p1.py`).

The embedding models Python attribute values that the code probes with
`getattr` as explicit sum types, Python truthiness as a `Bool`-valued
function, and the fallible `in` operator (which raises `TypeError` on a
truthy non-container) as an `Except`-valued function.  The external
catalog fetch (`client.models.list()`) and the generation call
(`client.models.generate_content(...)`) are inputs to the embedded
functions: a fetch is an `Except` value (exception or list of entries),
and a generation call is a function from the submitted prompt to an
outcome (exception message or response object).
-/

/-- The value of `getattr(m, "supported_generation_methods", None)`:
either the attribute is absent (`getattr` returns `None`), or it is a
collection of strings, or it is some non-container value with a given
Python truthiness. -/
inductive Methods where
  | absent : Methods
  | strs : List String → Methods
  | nonContainer : Bool → Methods
deriving DecidableEq, Repr

/-- Python truthiness of the methods attribute value: `None` is falsy, a
collection is truthy iff non-empty, a non-container carries its own
truthiness. -/
def methodsTruthy : Methods → Bool
  | Methods.absent => false
  | Methods.strs l => !l.isEmpty
  | Methods.nonContainer b => b

/-- Embedding of `methods and "generateContent" in methods` (p1.py line
45).  The `and` short-circuits on a falsy value; on a truthy value the
`in` test runs: membership for a collection, a `TypeError` (modelled as
`Except.error ()`) for a truthy non-container. -/
def checkMethods (ms : Methods) : Except Unit Bool :=
  if methodsTruthy ms then
    match ms with
    | Methods.strs l => Except.ok (l.contains "generateContent")
    | _ => Except.error ()
  else Except.ok false

/-- A catalog entry as the selector sees it: `getattr(m, "name", None)`
(a string or absent) and the supported-methods attribute. -/
structure ModelEntry where
  name : Option String
  methods : Methods
deriving DecidableEq, Repr

/-- Python truthiness of the name attribute: `None` and `""` are falsy
(`if not name: continue`, p1.py line 43). -/
def nameTruthy : Option String → Bool
  | none => false
  | some s => !s.isEmpty

/-- Insertion into the `valid` dict's key sequence (`valid[name] = True`,
p1.py line 46): Python dicts keep the first insertion position of a key. -/
def insertKey (acc : List String) (k : String) : List String :=
  if acc.contains k then acc else acc ++ [k]

/-- The loop of p1.py lines 39-46 building the `valid` dict: skip entries
with a falsy name, then test the capability attribute; a truthy
non-container methods value raises out of the loop (the `try` covers
only the fetch itself, lines 31-35). -/
def buildValidAux : List String → List ModelEntry → Except Unit (List String)
  | acc, [] => Except.ok acc
  | acc, e :: rest =>
    match e.name with
    | none => buildValidAux acc rest
    | some n =>
      if n.isEmpty then buildValidAux acc rest
      else
        match checkMethods e.methods with
        | Except.error u => Except.error u
        | Except.ok true => buildValidAux (insertKey acc n) rest
        | Except.ok false => buildValidAux acc rest

/-- The key sequence of the `valid` dict built from the raw catalog. -/
def buildValid (es : List ModelEntry) : Except Unit (List String) :=
  buildValidAux [] es

/-- `PREFERRED_MODELS` (p1.py lines 22-28). -/
def PREFERRED_MODELS : List String :=
  ["models/gemini-2.5-pro",
   "models/gemini-2.5-flash",
   "models/gemini-2.5-flash-lite",
   "models/gemini-1.5-pro",
   "models/gemini-1.5-pro-latest"]

/-- `choose_best_model` (p1.py lines 30-56).  The argument is the outcome
of `client.models.list()`: an exception or a list of entries.  A fetch
exception yields the hard-coded fallback; otherwise the `valid` dict is
built (which can itself raise, uncaught), the preference list is walked
(`pref in valid`), and failing that the first key of `valid` or the
hard-coded fallback is returned.  `next(iter(valid.keys()))` is the first
inserted key. -/
def choose_best_model (fetch : Except Unit (List ModelEntry)) : Except Unit String :=
  match fetch with
  | Except.error _ => Except.ok "models/gemini-2.5-pro"
  | Except.ok available =>
    match buildValid available with
    | Except.error u => Except.error u
    | Except.ok valid =>
      match PREFERRED_MODELS.find? (fun pref => valid.contains pref) with
      | some pref => Except.ok pref
      | none =>
        match valid with
        | [] => Except.ok "models/gemini-2.5-pro"
        | k :: _ => Except.ok k

/-- `CHOSEN_MODEL = choose_best_model()` (p1.py line 59): a single
module-level binding computed once from the fetch outcome and never
reassigned. -/
def CHOSEN_MODEL (fetch : Except Unit (List ModelEntry)) : Except Unit String :=
  choose_best_model fetch

/-- An attribute value probed on a response or candidate object
(`getattr(x, "text", None)`, `getattr(x, "content", None)`): absent
(`None`), a string, or some non-string value with a given Python
truthiness (in the real SDK, `candidate.content` is a `Content` object,
which is non-string and truthy). -/
inductive Attr where
  | absent : Attr
  | str : String → Attr
  | nonStr : Bool → Attr
deriving DecidableEq, Repr

/-- Python truthiness of an attribute value: `None` is falsy, a string is
truthy iff non-empty, a non-string carries its own truthiness. -/
def attrTruthy : Attr → Bool
  | Attr.absent => false
  | Attr.str s => !s.isEmpty
  | Attr.nonStr b => b

/-- Embedding of Python `a or b`: the left operand if truthy, otherwise
the right operand (p1.py line 153). -/
def attrOr (a b : Attr) : Attr :=
  if attrTruthy a then a else b

/-- A candidate object as the extractor sees it: its `content` and `text`
attributes. -/
structure Candidate where
  content : Attr
  text : Attr
deriving DecidableEq, Repr

/-- A response object as the extractor sees it: its direct `text`
attribute and its `candidates` attribute (absent, or a list of
candidates). -/
structure Response where
  text : Attr
  candidates : Option (List Candidate)
deriving DecidableEq, Repr

/-- The outcome of one `client.models.generate_content(...)` call: a
response object, or an exception whose `str(e)` is the given message. -/
inductive GenResult where
  | ok : Response → GenResult
  | exn : String → GenResult
deriving DecidableEq, Repr

/-- The whitespace set of Python `str.strip()` (ASCII portion): space,
tab, newline, carriage return, vertical tab, form feed. -/
def isPyWhitespace (c : Char) : Bool :=
  c = ' ' || c = '\t' || c = '\n' || c = '\r' || c = Char.ofNat 11 || c = Char.ofNat 12

/-- Embedding of Python `s.strip()`: drop whitespace from both ends. -/
def pyStrip (s : String) : String :=
  String.mk (((s.data.dropWhile isPyWhitespace).reverse.dropWhile isPyWhitespace).reverse)

/-- Whether `pat` occurs as a contiguous substring of `s` (Python
`pat in s`), checked at every suffix. -/
def strContainsAux (pat : List Char) : List Char → Bool
  | [] => pat.isEmpty
  | c :: rest => pat.isPrefixOf (c :: rest) || strContainsAux pat rest

/-- String containment: `strContains s pat = true` iff `pat` occurs in `s`. -/
def strContains (s pat : String) : Bool :=
  strContainsAux pat.data s.data

/-- The prompt template of the FIRST `get_diagnosis` definition
(p1.py lines 62-72), with the symptom text interpolated. -/
def prompt_v1 (symptoms : String) : String :=
  "You are a medical assistant. A user reports the following symptoms: " ++ symptoms ++
  "\n\nProvide:\n1. A likely diagnosis (mention uncertainty if not definitive).\n" ++
  "2. Suggested treatment (non-prescription/general advice; recommend seeing a doctor for serious concerns).\n" ++
  "3. Precautions to take.\nFormat the answer with clear headings like:\n" ++
  "Diagnosis:\nTreatment:\nPrecautions:\n"

/-- The prompt template of the SECOND `get_diagnosis` definition
(p1.py lines 95-141), with the symptom text interpolated. -/
def prompt_v2 (symptoms : String) : String :=
  "\nYou are a medical assistant. The user reports the following symptoms: " ++ symptoms ++
  "\n\nYour response must follow this exact format and structure, with no markdown, no asterisks, and no bold text. Use only plain text labels. Do not add extra commentary before or after.\n" ++
  "\nMain Advice:\n<one short paragraph in plain English summarizing the advice>\n" ++
  "\nPriority Assessment:\n<Low / Medium / High Priority based on urgency>\n" ++
  "\n#checking/ testing the activity logs by commits.\n" ++
  "\nMedical Assessment:\n<likely diagnosis or suspected cause>\n" ++
  "\nRecommended Treatment:\nOral Medication: <name or \"Not recommended\">\n" ++
  "  Dosage: <dosage or \"-\">\n  Frequency: <frequency or \"-\">\n  Duration: <duration or \"-\">\n" ++
  "\nInhaler: <name or \"Not recommended\">\n" ++
  "  Dosage: <dosage or \"-\">\n  Frequency: <frequency or \"-\">\n  Duration: <duration or \"-\">\n" ++
  "\nOintment: <name or \"Not recommended\">\n" ++
  "  Dosage: <dosage or \"-\">\n  Frequency: <frequency or \"-\">\n  Duration: <duration or \"-\">\n" ++
  "\nImportant Precautions:\n- <precaution 1>\n- <precaution 2>\n- <precaution 3>\n(Include at least 3)\n" ++
  "\nFollow-up Care:\n- <follow-up step 1>\n- <follow-up step 2>\n- <follow-up step 3>\n(Include at least 3)\n" ++
  "\nMedical Disclaimer:\nThis is not a substitute for professional medical advice.\n    "

/-- The FIRST `get_diagnosis` definition (p1.py lines 61-91), overridden
by the second.  `genCall` is the behaviour of
`client.models.generate_content` on the submitted prompt: a response
object or an exception.  The whole body is inside `try`, so an exception
becomes the error string; on success the tolerant extraction runs:
direct `text` string attribute (stripped), else first candidate's
`content or text` if that is a string (stripped), else the sentinel. -/
def get_diagnosis_v1 (genCall : String → GenResult) (symptoms : String) : String :=
  match genCall (prompt_v1 symptoms) with
  | GenResult.exn e => "Error contacting Gemini API:\n" ++ e
  | GenResult.ok response =>
    match response.text with
    | Attr.str t => pyStrip t
    | _ =>
      match response.candidates with
      | some (first :: _) =>
        match attrOr first.content first.text with
        | Attr.str c => pyStrip c
        | _ => "Received unexpected response format from Gemini API."
      | _ => "Received unexpected response format from Gemini API."

/-- The SECOND `get_diagnosis` definition (p1.py lines 94-158), the one
in effect at runtime.  Identical to the first except for the prompt
template. -/
def get_diagnosis (genCall : String → GenResult) (symptoms : String) : String :=
  match genCall (prompt_v2 symptoms) with
  | GenResult.exn e => "Error contacting Gemini API:\n" ++ e
  | GenResult.ok response =>
    match response.text with
    | Attr.str t => pyStrip t
    | _ =>
      match response.candidates with
      | some (first :: _) =>
        match attrOr first.content first.text with
        | Attr.str c => pyStrip c
        | _ => "Received unexpected response format from Gemini API."
      | _ => "Received unexpected response format from Gemini API."

theorem list_find_split {α : Type} (f : α → Bool) :
    ∀ (l : List α) (q : α), l.find? f = some q →
      ∃ l1 l2, l = l1 ++ q :: l2 ∧ f q = true ∧ ∀ p ∈ l1, f p = false := by
  intro l
  induction l with
  | nil => intro q h; simp at h
  | cons a t ih =>
    intro q h
    cases hfa : f a with
    | true =>
      rw [List.find?_cons_of_pos _ hfa] at h
      cases h
      exact ⟨[], t, rfl, hfa, by simp⟩
    | false =>
      rw [List.find?_cons_of_neg _ (by simp [hfa])] at h
      obtain ⟨l1, l2, he, hq, hall⟩ := ih q h
      refine ⟨a :: l1, l2, by rw [he]; rfl, hq, ?_⟩
      intro p hp
      rcases List.mem_cons.mp hp with rfl | hp
      · exact hfa
      · exact hall p hp

theorem mem_insertKey {acc : List String} {k x : String}
    (h : x ∈ insertKey acc k) : x ∈ acc ∨ x = k := by
  unfold insertKey at h
  by_cases hc : acc.contains k
  · rw [if_pos hc] at h; exact Or.inl h
  · rw [if_neg hc] at h
    rcases List.mem_append.mp h with h | h
    · exact Or.inl h
    · simp at h; exact Or.inr h

theorem buildValidAux_mem :
    ∀ (es : List ModelEntry) (acc v : List String),
      buildValidAux acc es = Except.ok v →
      ∀ x ∈ v, x ∈ acc ∨ x.isEmpty = false := by
  intro es
  induction es with
  | nil =>
    intro acc v h x hx
    cases h
    exact Or.inl hx
  | cons e rest ih =>
    intro acc v h x hx
    rw [buildValidAux] at h
    cases hname : e.name with
    | none =>
      rw [hname] at h
      exact ih acc v h x hx
    | some n =>
      rw [hname] at h
      dsimp only at h
      by_cases hn : n.isEmpty
      · rw [if_pos hn] at h
        exact ih acc v h x hx
      · rw [if_neg hn] at h
        cases hcm : checkMethods e.methods with
        | error u => rw [hcm] at h; cases h
        | ok b =>
          rw [hcm] at h
          cases b with
          | true =>
            rcases ih (insertKey acc n) v h x hx with hin | hne
            · rcases mem_insertKey hin with hin | rfl
              · exact Or.inl hin
              · exact Or.inr (by simpa using hn)
            · exact Or.inr hne
          | false => exact ih acc v h x hx

theorem buildValidAux_total :
    ∀ (es : List ModelEntry) (acc : List String),
      (∀ e ∈ es, nameTruthy e.name = true → e.methods ≠ Methods.nonContainer true) →
      ∃ v, buildValidAux acc es = Except.ok v := by
  intro es
  induction es with
  | nil => intro acc _; exact ⟨acc, rfl⟩
  | cons e rest ih =>
    intro acc h
    have hrest : ∀ e' ∈ rest, nameTruthy e'.name = true →
        e'.methods ≠ Methods.nonContainer true :=
      fun e' he' => h e' (List.mem_cons_of_mem _ he')
    have he := h e (List.mem_cons_self _ _)
    rw [buildValidAux]
    cases hname : e.name with
    | none => exact ih acc hrest
    | some n =>
      dsimp only
      by_cases hn : n.isEmpty
      · rw [if_pos hn]
        exact ih acc hrest
      · rw [if_neg hn]
        have hm : e.methods ≠ Methods.nonContainer true := by
          apply he
          rw [hname]
          simpa [nameTruthy] using hn
        have hcm : ∃ b, checkMethods e.methods = Except.ok b := by
          cases hms : e.methods with
          | absent => exact ⟨false, rfl⟩
          | strs l =>
            by_cases hl : l.isEmpty
            · exact ⟨false, by simp [checkMethods, methodsTruthy, hl]⟩
            · exact ⟨l.contains "generateContent",
                by simp [checkMethods, methodsTruthy, hl]⟩
          | nonContainer b =>
            cases b with
            | false => exact ⟨false, rfl⟩
            | true => exact absurd hms hm
        obtain ⟨b, hb⟩ := hcm
        rw [hb]
        cases b with
        | true => exact ih (insertKey acc n) hrest
        | false => exact ih acc hrest

/-- C1: for every symptom string and every behaviour of the generation
call, `get_diagnosis` returns a string (it is a total function into
`String`: every exception is caught by the `try`/`except` that wraps the
whole body); when the call fails with message `"timeout"`, the result is
exactly `"Error contacting Gemini API:\ntimeout"`, which contains both
`"Error contacting"` and `"timeout"`. -/
theorem C1_requester_never_raises (symptoms msg : String)
    (genCall : String → GenResult) :
    (∃ out : String, get_diagnosis genCall symptoms = out) ∧
    get_diagnosis (fun _ => GenResult.exn msg) symptoms
      = "Error contacting Gemini API:\n" ++ msg ∧
    strContains (get_diagnosis (fun _ => GenResult.exn "timeout") symptoms)
      "Error contacting" = true ∧
    strContains (get_diagnosis (fun _ => GenResult.exn "timeout") symptoms)
      "timeout" = true := by
  refine ⟨⟨_, rfl⟩, rfl, ?_, ?_⟩
  · show strContains "Error contacting Gemini API:\ntimeout" "Error contacting" = true
    decide
  · show strContains "Error contacting Gemini API:\ntimeout" "timeout" = true
    decide

/-- C3: `choose_best_model` returns exactly `"models/gemini-2.5-pro"`
both when the catalog fetch raises and when the fetch succeeds but the
supported set built from the catalog is empty. -/
theorem C3_default_on_failure_or_empty (es : List ModelEntry)
    (h : buildValid es = Except.ok []) :
    choose_best_model (Except.error ()) = Except.ok "models/gemini-2.5-pro" ∧
    choose_best_model (Except.ok es) = Except.ok "models/gemini-2.5-pro" := by
  refine ⟨rfl, ?_⟩
  simp only [choose_best_model]
  rw [h]
  rfl

/-- Witness for C3: the empty catalog builds an empty supported set. -/
theorem C3_witness :
    choose_best_model (Except.error ()) = Except.ok "models/gemini-2.5-pro" ∧
    choose_best_model (Except.ok []) = Except.ok "models/gemini-2.5-pro" :=
  C3_default_on_failure_or_empty [] rfl

/-- C6: a response whose direct `text` attribute is a string yields that
string stripped of leading/trailing whitespace, whatever the candidates
attribute holds; in particular `text = "Diagnosis: flu"` yields exactly
`"Diagnosis: flu"`. -/
theorem C6_direct_text_stripped (symptoms s : String)
    (cands : Option (List Candidate)) :
    get_diagnosis (fun _ => GenResult.ok ⟨Attr.str s, cands⟩) symptoms
      = pyStrip s ∧
    get_diagnosis (fun _ => GenResult.ok ⟨Attr.str "Diagnosis: flu", none⟩) symptoms
      = "Diagnosis: flu" := by
  exact ⟨rfl, rfl⟩

/-- C8: a response that matches neither extraction shape — its direct
`text` attribute is not a string, and the first candidate (if any) does
not select a string via `content or text` — yields the literal sentinel. -/
theorem C8_sentinel_on_unrecognized (symptoms : String) (r : Response)
    (htext : ∀ t, r.text ≠ Attr.str t)
    (hcand : ∀ first rest, r.candidates = some (first :: rest) →
      ∀ c, attrOr first.content first.text ≠ Attr.str c) :
    get_diagnosis (fun _ => GenResult.ok r) symptoms
      = "Received unexpected response format from Gemini API." := by
  obtain ⟨rt, rc⟩ := r
  simp only [get_diagnosis]
  cases rt with
  | str t => exact absurd rfl (htext t)
  | absent =>
    cases rc with
    | none => rfl
    | some cl =>
      cases cl with
      | nil => rfl
      | cons first rest =>
        have hs := hcand first rest rfl
        dsimp only
        cases hsel : attrOr first.content first.text with
        | str c => exact absurd hsel (hs c)
        | absent => rfl
        | nonStr b => rfl
  | nonStr b =>
    cases rc with
    | none => rfl
    | some cl =>
      cases cl with
      | nil => rfl
      | cons first rest =>
        have hs := hcand first rest rfl
        dsimp only
        cases hsel : attrOr first.content first.text with
        | str c => exact absurd hsel (hs c)
        | absent => rfl
        | nonStr b2 => rfl

/-- Witness for C8: a response with no text attribute and no candidates
attribute yields the sentinel. -/
theorem C8_witness :
    get_diagnosis (fun _ => GenResult.ok ⟨Attr.absent, none⟩) "fever"
      = "Received unexpected response format from Gemini API." :=
  C8_sentinel_on_unrecognized "fever" ⟨Attr.absent, none⟩
    (fun _ h => Attr.noConfusion h)
    (fun _ _ h => Option.noConfusion h)

/-- C10: the two `get_diagnosis` definitions (the second shadowing the
first) have extensionally equal response-extraction and error-conversion
behaviour — for every fixed outcome of the generation call they return
the same string — and they differ in the prompt template they submit. -/
theorem C10_two_definitions_agree :
    (∀ (out : GenResult) (symptoms : String),
      get_diagnosis_v1 (fun _ => out) symptoms
        = get_diagnosis (fun _ => out) symptoms) ∧
    prompt_v1 "" ≠ prompt_v2 "" := by
  constructor
  · intro out symptoms
    cases out with
    | exn e => rfl
    | ok r => rfl
  · decide

/-- C2: when at least one of the 5 preferred identifiers is in the
supported set, `choose_best_model` returns the highest-priority preferred
identifier present — the preference list splits as `l1 ++ q :: l2` with
every entry of `l1` absent from the supported set — and the result
depends only on the membership of the supported set, not on the order of
entries in the raw catalog. -/
theorem C2_highest_priority_preferred (es es2 : List ModelEntry)
    (valid valid2 : List String)
    (h1 : buildValid es = Except.ok valid)
    (h2 : buildValid es2 = Except.ok valid2)
    (hsame : ∀ s, valid.contains s = valid2.contains s)
    (hp : ∃ p ∈ PREFERRED_MODELS, valid.contains p = true) :
    ∃ q l1 l2,
      choose_best_model (Except.ok es) = Except.ok q ∧
      choose_best_model (Except.ok es2) = Except.ok q ∧
      PREFERRED_MODELS = l1 ++ q :: l2 ∧
      valid.contains q = true ∧
      ∀ p ∈ l1, valid.contains p = false := by
  obtain ⟨p0, hp0, hc0⟩ := hp
  cases hf : PREFERRED_MODELS.find? (fun pref => valid.contains pref) with
  | none =>
    exfalso
    have hnone := List.find?_eq_none.mp hf p0 hp0
    simp at hnone hc0
    exact hnone hc0
  | some q =>
    obtain ⟨l1, l2, hsplit, hq, hall⟩ := list_find_split _ _ _ hf
    have hf2 : PREFERRED_MODELS.find? (fun pref => valid2.contains pref) = some q := by
      have hfun : (fun pref => valid2.contains pref)
          = (fun pref => valid.contains pref) := by
        funext t
        rw [hsame t]
      rw [hfun, hf]
    refine ⟨q, l1, l2, ?_, ?_, hsplit, hq, hall⟩
    · simp only [choose_best_model]
      rw [h1]
      dsimp only
      rw [hf]
    · simp only [choose_best_model]
      rw [h2]
      dsimp only
      rw [hf2]

/-- Witness for C2: two catalogs listing the same two generateContent
models in opposite orders both select `"models/gemini-1.5-pro"`, the
only preferred identifier present. -/
theorem C2_witness :
    ∃ q l1 l2,
      choose_best_model (Except.ok
        [⟨some "models/x", Methods.strs ["generateContent"]⟩,
         ⟨some "models/gemini-1.5-pro", Methods.strs ["generateContent"]⟩])
        = Except.ok q ∧
      choose_best_model (Except.ok
        [⟨some "models/gemini-1.5-pro", Methods.strs ["generateContent"]⟩,
         ⟨some "models/x", Methods.strs ["generateContent"]⟩])
        = Except.ok q ∧
      PREFERRED_MODELS = l1 ++ q :: l2 ∧
      (["models/x", "models/gemini-1.5-pro"]).contains q = true ∧
      ∀ p ∈ l1, (["models/x", "models/gemini-1.5-pro"]).contains p = false := by
  exact C2_highest_priority_preferred
    [⟨some "models/x", Methods.strs ["generateContent"]⟩,
     ⟨some "models/gemini-1.5-pro", Methods.strs ["generateContent"]⟩]
    [⟨some "models/gemini-1.5-pro", Methods.strs ["generateContent"]⟩,
     ⟨some "models/x", Methods.strs ["generateContent"]⟩]
    ["models/x", "models/gemini-1.5-pro"]
    ["models/gemini-1.5-pro", "models/x"]
    rfl rfl
    (by
      intro t
      cases hA : t == "models/x" <;> cases hB : t == "models/gemini-1.5-pro" <;>
        simp [List.contains, List.elem, hA, hB])
    ⟨"models/gemini-1.5-pro", by simp [PREFERRED_MODELS], by decide⟩

/-- C4: when no preferred identifier is in the supported set but the set
is non-empty, `choose_best_model` returns a member of the supported set,
which is necessarily not the hard-coded default (the default is itself a
preferred identifier). -/
theorem C4_nonpreferred_fallback_member (es : List ModelEntry)
    (valid : List String)
    (h : buildValid es = Except.ok valid)
    (hne : valid ≠ [])
    (hnp : ∀ p ∈ PREFERRED_MODELS, valid.contains p = false) :
    ∃ m, choose_best_model (Except.ok es) = Except.ok m ∧
      valid.contains m = true ∧ m ≠ "models/gemini-2.5-pro" := by
  have hf : PREFERRED_MODELS.find? (fun pref => valid.contains pref) = none := by
    apply List.find?_eq_none.mpr
    intro x hx
    have hc := hnp x hx
    simp at hc ⊢
    exact hc
  cases valid with
  | nil => exact absurd rfl hne
  | cons k rest =>
    refine ⟨k, ?_, ?_, ?_⟩
    · simp only [choose_best_model]
      rw [h]
      dsimp only
      rw [hf]
    · simp [List.contains_cons]
    · intro hk
      have hd := hnp "models/gemini-2.5-pro" (by simp [PREFERRED_MODELS])
      subst hk
      simp [List.contains_cons] at hd

/-- Witness for C4: a catalog exposing only `"models/other"` with
generateContent selects `"models/other"`. -/
theorem C4_witness :
    ∃ m, choose_best_model (Except.ok
        [⟨some "models/other", Methods.strs ["generateContent"]⟩])
      = Except.ok m ∧
      (["models/other"]).contains m = true ∧ m ≠ "models/gemini-2.5-pro" :=
  C4_nonpreferred_fallback_member _ ["models/other"] rfl (by decide) (by decide)

/-- Counterexample to C5 as stated: a catalog entry whose capability
attribute is a truthy non-container value (e.g. an integer) makes
`"generateContent" in methods` raise `TypeError`; the `try` covers only
the fetch itself (p1.py lines 31-35), so `choose_best_model` propagates
the exception instead of returning an identifier. -/
theorem C5_counterexample :
    choose_best_model
      (Except.ok [⟨some "m", Methods.nonContainer true⟩]) = Except.error () :=
  rfl

/-- C5 amended: `choose_best_model` never raises provided no entry with
a truthy name carries a truthy non-container capability attribute; an
absent, falsy, or empty-collection capability attribute is treated as
"unsupported" (it contributes nothing to the supported set), never as
an error. -/
theorem C5_amended_no_raise (fetch : Except Unit (List ModelEntry))
    (h : ∀ es, fetch = Except.ok es → ∀ e ∈ es,
      nameTruthy e.name = true → e.methods ≠ Methods.nonContainer true) :
    (∃ s, choose_best_model fetch = Except.ok s) ∧
    buildValid [⟨some "m", Methods.absent⟩] = Except.ok [] ∧
    buildValid [⟨some "m", Methods.nonContainer false⟩] = Except.ok [] ∧
    buildValid [⟨some "m", Methods.strs []⟩] = Except.ok [] := by
  refine ⟨?_, rfl, rfl, rfl⟩
  cases fetch with
  | error u => exact ⟨_, rfl⟩
  | ok es =>
    obtain ⟨v, hv⟩ := buildValidAux_total es [] (h es rfl)
    have hv' : buildValid es = Except.ok v := hv
    simp only [choose_best_model]
    rw [hv']
    dsimp only
    cases hf : PREFERRED_MODELS.find? (fun pref => v.contains pref) with
    | some q => exact ⟨q, rfl⟩
    | none =>
      cases v with
      | nil => exact ⟨_, rfl⟩
      | cons k rest => exact ⟨k, rfl⟩

/-- Witness for C5 amended: a well-shaped catalog yields an identifier. -/
theorem C5_witness :
    (∃ s, choose_best_model (Except.ok
        [⟨some "models/x", Methods.strs ["generateContent"]⟩])
      = Except.ok s) ∧
    buildValid [⟨some "m", Methods.absent⟩] = Except.ok [] ∧
    buildValid [⟨some "m", Methods.nonContainer false⟩] = Except.ok [] ∧
    buildValid [⟨some "m", Methods.strs []⟩] = Except.ok [] := by
  apply C5_amended_no_raise
  intro es heq e he hn
  cases heq
  simp at he
  subst he
  decide

/-- Counterexample to C7 as stated: the first candidate exposes the
string `"hello"` as its `text` attribute, but its `content` attribute is
a truthy non-string (as `candidate.content` is in the real SDK), so
`content or text` selects the non-string and the code returns the
sentinel, not `"hello"`. -/
theorem C7_counterexample :
    get_diagnosis (fun _ => GenResult.ok
        ⟨Attr.absent, some [⟨Attr.nonStr true, Attr.str "hello"⟩]⟩) "sym"
      = "Received unexpected response format from Gemini API." ∧
    get_diagnosis (fun _ => GenResult.ok
        ⟨Attr.absent, some [⟨Attr.nonStr true, Attr.str "hello"⟩]⟩) "sym"
      ≠ "hello" := by
  exact ⟨rfl, by decide⟩

/-- C7 amended: when the direct `text` attribute is not a string, the
candidate list is non-empty, and the value selected from the first
candidate by `content or text` (the `content` attribute if truthy,
otherwise the `text` attribute) is a string, `get_diagnosis` returns
that string stripped. -/
theorem C7_amended_candidate_text (symptoms s : String) (r : Response)
    (first : Candidate) (rest : List Candidate)
    (htext : ∀ t, r.text ≠ Attr.str t)
    (hc : r.candidates = some (first :: rest))
    (hsel : attrOr first.content first.text = Attr.str s) :
    get_diagnosis (fun _ => GenResult.ok r) symptoms = pyStrip s := by
  obtain ⟨rt, rc⟩ := r
  dsimp only at hc
  subst hc
  simp only [get_diagnosis]
  cases rt with
  | str t => exact absurd rfl (htext t)
  | absent => rw [hsel]
  | nonStr b => rw [hsel]

/-- Witness for C7 amended: a first candidate whose `content` attribute
is the string `"see a doctor"` yields `"see a doctor"`. -/
theorem C7_witness :
    get_diagnosis (fun _ => GenResult.ok
        ⟨Attr.absent, some [⟨Attr.str "see a doctor", Attr.absent⟩]⟩) "cough"
      = "see a doctor" :=
  C7_amended_candidate_text "cough" "see a doctor"
    ⟨Attr.absent, some [⟨Attr.str "see a doctor", Attr.absent⟩]⟩
    ⟨Attr.str "see a doctor", Attr.absent⟩ []
    (fun _ h => Attr.noConfusion h) rfl rfl

/-- C9: whatever the catalog content or fetch failure mode, whenever the
selection returns a value (`CHOSEN_MODEL`, bound once at process start
and never reassigned), that value is a non-empty string. -/
theorem C9_chosen_model_nonempty (fetch : Except Unit (List ModelEntry))
    (s : String) (h : CHOSEN_MODEL fetch = Except.ok s) : s ≠ "" := by
  unfold CHOSEN_MODEL at h
  cases fetch with
  | error u =>
    simp only [choose_best_model] at h
    cases h
    decide
  | ok es =>
    simp only [choose_best_model] at h
    cases hbv : buildValid es with
    | error u =>
      rw [hbv] at h
      cases h
    | ok valid =>
      rw [hbv] at h
      dsimp only at h
      cases hf : PREFERRED_MODELS.find? (fun pref => valid.contains pref) with
      | some q =>
        rw [hf] at h
        cases h
        have hm := List.mem_of_find?_eq_some hf
        simp [PREFERRED_MODELS] at hm
        rcases hm with rfl | rfl | rfl | rfl | rfl <;> decide
      | none =>
        rw [hf] at h
        cases valid with
        | nil =>
          dsimp only at h
          cases h
          decide
        | cons k rest =>
          dsimp only at h
          cases h
          have hk := buildValidAux_mem es [] (s :: rest) hbv s (by simp)
          rcases hk with hin | hne
          · simp at hin
          · intro h0
            rw [h0] at hne
            exact absurd hne (by decide)

/-- Witness for C9: the fetch-failure path yields the non-empty default. -/
theorem C9_witness : "models/gemini-2.5-pro" ≠ "" :=
  C9_chosen_model_nonempty (Except.error ()) "models/gemini-2.5-pro" rfl
